/-
Verification of the DocGbt retrieval-augmented-generation backend.

Shallow embedding of the Python backend (`backend/app/...`) into Lean 4:
strings are modelled as `List Char` (one entry per Python character),
machine integers as `Nat`/`Int` with explicit `% 2 ^ w` where overflow
matters, fallible collaborator calls as `Except`, and stateful services
as explicit state passing.  Each definition names the Python function it
embeds.
-/
import Mathlib

namespace DocGbt

/-- Whitespace test used by Python `str.strip()` for the ASCII range:
space, tab, newline, carriage return, vertical tab and form feed.
(Python also strips some further Unicode space characters; the texts
handled here make no use of them.) -/
def pyIsSpace (c : Char) : Bool :=
  c = ' ' || c = '\t' || c = '\n' || c = '\r' || c = '\x0b' || c = '\x0c'

/-- Model of Python `str.strip()`: drop `pyIsSpace` characters from both
ends of the string. -/
def pyStrip (s : List Char) : List Char :=
  (((s.dropWhile pyIsSpace).reverse.dropWhile pyIsSpace)).reverse

/-- Start position of the next window in `PDFUtils.chunk_text`
(`backend/app/utils/pdf_utils.py`, lines 100-105): the source sets
`start = end - chunk_overlap` and then overrides it with `start = end`
when `chunk_overlap >= chunk_size`.  `end` is `start + chunk_size`.
The overlap is an `Int` because Python puts no sign restriction on it;
in the `overlap < size` branch the value `start + size - overlap`
exceeds `start`, so `Int.toNat` is exact. -/
def nextStart (size : Nat) (overlap : Int) (start : Nat) : Nat :=
  if (size : Int) ≤ overlap then start + size
  else ((start : Int) + (size : Int) - overlap).toNat

/-- Body of the `while start < len(text)` loop of `PDFUtils.chunk_text`
(`backend/app/utils/pdf_utils.py`, lines 89-105), with an explicit fuel
argument bounding the number of iterations.  Each iteration slices the
window `text[start:start+size]`, appends its stripped form when that is
non-empty, and advances `start` by `nextStart`.  For `0 < size` the
start position strictly increases each iteration, so fuel
`text.length` makes the loop run to completion (proved in
`chunk_text_loop_fuel_irrelevant`). -/
def chunk_text_loop (text : List Char) (size : Nat) (overlap : Int) :
    Nat → Nat → List (List Char)
  | 0, _ => []
  | fuel + 1, start =>
    if start < text.length then
      let window := (text.drop start).take size
      let stripped := pyStrip window
      let rest := chunk_text_loop text size overlap fuel (nextStart size overlap start)
      if stripped.isEmpty then rest else stripped :: rest
    else []

/-- Model of `PDFUtils.chunk_text` (`backend/app/utils/pdf_utils.py`,
lines 71-107): `if not text: return []`, then the sliding-window loop
starting at position 0. -/
def chunk_text (text : List Char) (size : Nat) (overlap : Int) : List (List Char) :=
  if text.isEmpty then [] else chunk_text_loop text size overlap text.length 0

/-- Page record produced by `PDFUtils.extract_text_from_pdf`:
a page number and the extracted page text. -/
structure PageRec where
  page_number : Nat
  text : List Char
  deriving DecidableEq, Repr

/-- Chunk record produced by `PDFUtils.chunk_pages`: page number,
per-page chunk index and chunk text. -/
structure ChunkRec where
  page_number : Nat
  chunk_id : Nat
  text : List Char
  deriving DecidableEq, Repr

/-- Model of `PDFUtils.chunk_pages` (`backend/app/utils/pdf_utils.py`,
lines 110-147): chunk each page text with `chunk_text` and tag each
chunk with the page number and its 0-based index within the page. -/
def chunk_pages (pages : List PageRec) (size : Nat) (overlap : Int) : List ChunkRec :=
  pages.flatMap fun page =>
    (chunk_text page.text size overlap).enum.map fun tc =>
      { page_number := page.page_number, chunk_id := tc.1, text := tc.2 }

/-- Payload stored with every Qdrant point by
`VectorService.add_document_chunks`
(`backend/app/services/vector_service.py`, lines 152-162). -/
structure Payload where
  chunk_id : List Char
  document_id : List Char
  page_number : Nat
  chunk_number : Nat
  text : List Char
  deriving DecidableEq, Repr

/-- Qdrant point: integer id, embedding vector and payload.  Vector
components are modelled as rationals. -/
structure Point where
  id : Nat
  vector : List ℚ
  payload : Payload
  deriving DecidableEq, Repr

/-- Retrieved passage returned by `VectorService.search`
(`backend/app/services/vector_service.py`, lines 214-224). -/
structure Passage where
  text : List Char
  page_number : Nat
  chunk_id : Nat
  distance : ℚ
  deriving DecidableEq, Repr

/-- Insert a point into a list that is sorted by descending score,
keeping it sorted.  Part of the model of Qdrant ranking. -/
def insertByScoreDesc (score : Point → ℚ) (x : Point) : List Point → List Point
  | [] => [x]
  | y :: ys =>
    if score y ≤ score x then x :: y :: ys else y :: insertByScoreDesc score x ys

/-- Sort points by descending score (insertion sort).  Model of the
ranking performed by Qdrant similarity search. -/
def sortByScoreDesc (score : Point → ℚ) : List Point → List Point
  | [] => []
  | x :: xs => insertByScoreDesc score x (sortByScoreDesc score xs)

/-- Model of the Qdrant `must`-filter on `document_id` used by
`VectorService.search`, `delete_document_chunks` and
`get_chunk_count`: keep exactly the points whose payload
`document_id` equals the given value. -/
def qdrantFilterByDoc (store : List Point) (docId : List Char) : List Point :=
  store.filter fun p => p.payload.document_id == docId

/-- Model of `client.search(collection, query_vector, query_filter,
limit)` as called in `VectorService.search`
(`backend/app/services/vector_service.py`, lines 200-212): filter by
`document_id`, rank by descending similarity score, return the first
`limit` points.  The similarity scoring function `sim` is a parameter,
so every statement below holds for every scoring the index might use. -/
def qdrantSearch (store : List Point) (queryVector : List ℚ) (docId : List Char)
    (limit : Nat) (sim : List ℚ → List ℚ → ℚ) : List Point :=
  (sortByScoreDesc (fun p => sim queryVector p.vector)
    (qdrantFilterByDoc store docId)).take limit

/-- Model of `VectorService.search`
(`backend/app/services/vector_service.py`, lines 173-224): embed the
query, run the filtered Qdrant search, and format each scored point as
a passage with `distance = 1 - score`.  The embedding backend `embed`
is an external collaborator, passed as a parameter. -/
def VectorService.search (sim : List ℚ → List ℚ → ℚ)
    (embed : List Char → List ℚ) (store : List Point)
    (query document_id : List Char) (top_k : Nat) : List Passage :=
  (qdrantSearch store (embed query) document_id top_k sim).map fun sp =>
    { text := sp.payload.text
      page_number := sp.payload.page_number
      chunk_id := sp.payload.chunk_number
      distance := 1 - sim (embed query) sp.vector }

/-- Model of CPython's built-in `hash()` on `str`.  Since Python 3.3,
string hashing is randomized: the hash is keyed by a per-process salt
(`PYTHONHASHSEED`), so the same string hashes to the same value within
one interpreter process but to different values in different processes.
The exact mixing (SipHash-1-3 in CPython) is replaced here by a simple
salted polynomial fold into 64 bits; the two properties the development
relies on are faithful: the result is a deterministic function of
`(salt, string)`, and it depends on the salt. -/
def pyStrHash (salt : Nat) (s : List Char) : Nat :=
  s.foldl (fun h c => (h * 1000003 + c.toNat) % 2 ^ 64) (salt % 2 ^ 64)

/-- The `chunk_id` string built by `VectorService.add_document_chunks`
(`backend/app/services/vector_service.py`, line 146):
`f"{document_id}_page{page_number}_chunk{chunk_id}"`. -/
def chunkIdString (document_id : List Char) (page_number chunk_number : Nat) :
    List Char :=
  document_id ++ "_page".data ++ (Nat.repr page_number).data ++
    "_chunk".data ++ (Nat.repr chunk_number).data

/-- The Qdrant point id computed by `VectorService.add_document_chunks`
(`backend/app/services/vector_service.py`, line 153):
`hash(chunk_id) % (2**63)`.  The `salt` argument is the interpreter
process's hash-randomization seed, on which Python's `hash` of a string
depends. -/
def pointId (salt : Nat) (document_id : List Char) (page_number chunk_number : Nat) :
    Nat :=
  pyStrHash salt (chunkIdString document_id page_number chunk_number) % 2 ^ 63

/-- The point built for one chunk dict by
`VectorService.add_document_chunks`
(`backend/app/services/vector_service.py`, lines 144-163). -/
def mkPoint (salt : Nat) (embed : List Char → List ℚ) (document_id : List Char)
    (c : ChunkRec) : Point :=
  { id := pointId salt document_id c.page_number c.chunk_id
    vector := embed c.text
    payload :=
      { chunk_id := chunkIdString document_id c.page_number c.chunk_id
        document_id := document_id
        page_number := c.page_number
        chunk_number := c.chunk_id
        text := c.text } }

/-- Model of Qdrant upsert semantics for one point: a point whose id is
already present overwrites the stored point with that id; otherwise it
is inserted. -/
def qdrantUpsertOne (store : List Point) (p : Point) : List Point :=
  if store.any fun q => q.id == p.id then
    store.map fun q => if q.id == p.id then p else q
  else store ++ [p]

/-- Model of `client.upsert(collection, points)`: upsert the points in
order. -/
def qdrantUpsert (store : List Point) (ps : List Point) : List Point :=
  ps.foldl qdrantUpsertOne store

/-- Model of `VectorService.add_document_chunks`
(`backend/app/services/vector_service.py`, lines 124-169): return
unchanged on an empty chunk list, otherwise embed every chunk, build
its point and upsert the batch. -/
def VectorService.add_document_chunks (salt : Nat) (embed : List Char → List ℚ)
    (store : List Point) (document_id : List Char) (chunks : List ChunkRec) :
    List Point :=
  if chunks.isEmpty then store
  else qdrantUpsert store (chunks.map (mkPoint salt embed document_id))

/-- Model of `VectorService.get_chunk_count`
(`backend/app/services/vector_service.py`, lines 253-270): count the
points whose payload `document_id` matches. -/
def VectorService.get_chunk_count (store : List Point) (document_id : List Char) :
    Nat :=
  (qdrantFilterByDoc store document_id).length

/-- Boolean success test for `Except`. -/
def exOk {ε α : Type} : Except ε α → Bool
  | .ok _ => true
  | .error _ => false

/-- Outcomes of the external collaborator calls made during one run of
`DocumentService.upload_document`
(`backend/app/services/document_service.py`, lines 38-98).  Each field
is the result the collaborator would return when the corresponding step
is reached: `allowed` for `FileUtils.allowed_file`, `pageCount` for
`PDFUtils.get_page_count`, `blobUrl` for `FileUtils.upload_to_supabase`,
`newDocId` for the id of the record built by `document_repo.create`,
`extractPages` for `PDFUtils.extract_text_from_pdf`, and `indexChunks`
for `VectorService.add_document_chunks` (whose embedding calls re-raise
any backend failure). -/
structure UploadEnv where
  allowed : Bool
  pageCount : Except (List Char) Nat
  blobUrl : Except (List Char) (List Char)
  newDocId : List Char
  extractPages : Except (List Char) (List PageRec)
  indexChunks : Except (List Char) Unit

/-- Relational document records and blob urls visible to the upload and
delete flows. -/
structure BackendState where
  docs : List (List Char)
  blobs : List (List Char)
  deriving DecidableEq, Repr

/-- Model of `DocumentService.upload_document`
(`backend/app/services/document_service.py`, lines 38-98): validate the
extension, read the page count, upload the blob, create the document
record, then extract text, chunk it with `Config.CHUNK_SIZE = 1500` and
`Config.CHUNK_OVERLAP = 300` and index the chunks; if extraction,
chunking, embedding or indexing raises, delete the just-created record
and the blob and re-raise `"Failed to process document: ..."`.  The
result pairs the raised-or-returned value with the final backend
state. -/
def DocumentService.upload_document (env : UploadEnv) (st : BackendState) :
    Except (List Char) (List Char) × BackendState :=
  if !env.allowed then (.error "Only PDF files are allowed".data, st)
  else
    match env.pageCount with
    | .error e => (.error e, st)
    | .ok _ =>
      match env.blobUrl with
      | .error e => (.error e, st)
      | .ok url =>
        let st2 : BackendState := ⟨st.docs ++ [env.newDocId], st.blobs ++ [url]⟩
        match env.extractPages with
        | .error e =>
          (.error ("Failed to process document: ".data ++ e),
           ⟨st2.docs.filter (fun d => d != env.newDocId),
            st2.blobs.filter (fun b => b != url)⟩)
        | .ok pages =>
          let _chunks := chunk_pages pages 1500 300
          match env.indexChunks with
          | .error e =>
            (.error ("Failed to process document: ".data ++ e),
             ⟨st2.docs.filter (fun d => d != env.newDocId),
              st2.blobs.filter (fun b => b != url)⟩)
          | .ok _ => (.ok env.newDocId, st2)

/-- Outcomes of the collaborator calls made by the HTTP upload route
`upload_document` in `backend/app/routes/document_routes.py`,
lines 46-130 (the route talks to the blob store, the PDF extractor and
the vector service directly, not through `DocumentService`). -/
structure RouteUploadEnv where
  blobUrl : Except (List Char) (List Char)
  extractPages : Except (List Char) (List PageRec)
  newDocId : List Char
  indexChunks : Except (List Char) Unit

/-- Text joining used by the upload route (line 71 of
`backend/app/routes/document_routes.py`):
`' '.join(page['text'] for page in pages)`. -/
def joinPagesWithSpace (pages : List PageRec) : List Char :=
  List.intercalate " ".data (pages.map fun p => p.text)

/-- Model of the HTTP upload route `upload_document`
(`backend/app/routes/document_routes.py`, lines 46-130): upload the
blob, extract text, then — inside an inner `try` — chunk the joined
text and index the chunks; a failure of that inner step is caught,
logged and ignored (`"Don't fail the entire upload"`, lines 104-108),
after which the document record is created unconditionally and the
route returns success. -/
def route_upload_document (env : RouteUploadEnv) (st : BackendState) :
    Except (List Char) (List Char) × BackendState :=
  match env.blobUrl with
  | .error e => (.error e, st)
  | .ok url =>
    let st2 : BackendState := ⟨st.docs, st.blobs ++ [url]⟩
    match env.extractPages with
    | .error e => (.error e, st2)
    | .ok pages =>
      let _chunks := chunk_text (joinPagesWithSpace pages) 1500 300
      let _ignored := env.indexChunks
      (.ok env.newDocId, ⟨st2.docs ++ [env.newDocId], st2.blobs⟩)

/-- Model of `VectorService.delete_document_chunks`
(`backend/app/services/vector_service.py`, lines 226-251): delete all
points whose payload `document_id` matches.  The whole body is wrapped
in `try/except` whose handler only prints, so the function never
raises: when the underlying Qdrant delete fails (`ok = false`) the
points simply remain. -/
def VectorService.delete_document_chunks (ok : Bool) (store : List Point)
    (document_id : List Char) : List Point :=
  if ok then store.filter (fun p => !(p.payload.document_id == document_id))
  else store

/-- Outcomes of the collaborator calls made during
`DocumentService.delete_document`: whether the Qdrant delete call and
the blob-storage remove call succeed. -/
structure DeleteEnv where
  qdrantDeleteOk : Bool
  blobRemoveOk : Bool

/-- State touched by document deletion: the vector store, whether the
blob and the relational record still exist, and the record's owner. -/
structure DocDeleteState where
  points : List Point
  blobPresent : Bool
  recordPresent : Bool
  owner : List Char
  deriving DecidableEq, Repr

/-- Model of `FileUtils.delete_from_supabase`
(`backend/app/utils/file_utils.py`, lines 93-117): returns `True` on
success; a storage failure is caught and turned into `False`, never
raised.  Result: (returned boolean, whether the blob is still
present). -/
def FileUtils.delete_from_supabase (ok : Bool) (blobPresent : Bool) : Bool × Bool :=
  if ok then (true, false) else (false, blobPresent)

/-- Model of `DocumentService.delete_document`
(`backend/app/services/document_service.py`, lines 120-141):
`get_document` checks existence and ownership (raising `ValueError` or
`PermissionError`), then the vector chunks, the blob and the relational
record are deleted in that order and `True` is returned.  The boolean
result of the blob delete is ignored by the caller, as in the
source. -/
def DocumentService.delete_document (env : DeleteEnv) (st : DocDeleteState)
    (document_id user_id : List Char) : Except (List Char) Bool × DocDeleteState :=
  if !st.recordPresent then (.error "Document not found".data, st)
  else if st.owner != user_id then
    (.error "You do not have permission to access this document".data, st)
  else
    let points := VectorService.delete_document_chunks env.qdrantDeleteOk
      st.points document_id
    let blobPresent := (FileUtils.delete_from_supabase env.blobRemoveOk
      st.blobPresent).2
    (.ok true, ⟨points, blobPresent, false, st.owner⟩)

/-- Message sent to the Groq chat-completion endpoint: a role and a
content string. -/
structure ChatMsg where
  role : List Char
  content : List Char
  deriving DecidableEq, Repr

/-- Conversation-history entry handed to `RAGService.generate_response`
and `generate_response_stream`: the dict rows selected by the chat
route carry `role`, `content` and `created_at`; only the first two are
copied into the outgoing messages. -/
structure HistMsg where
  role : List Char
  content : List Char
  created_at : List Char
  deriving DecidableEq, Repr

/-- Model of the Python slice `l[-n:]` for `n ≥ 1`: the last `n`
elements (the whole list when it is shorter). -/
def lastN {α : Type} (n : Nat) (l : List α) : List α :=
  l.drop (l.length - n)

/-- The system-prompt literal of `RAGService.generate_response`
(`backend/app/services/rag_service.py`, lines 40-71), verbatim. -/
def ragSystemPromptBase : List Char :=
  ("You are DocGPT, a friendly AI document assistant. Chat naturally like a helpful colleague.\n\nPERSONALITY & BEHAVIOR:\n- Respond to greetings warmly and briefly (e.g., \"Hi! How can I help you with your document today?\")\n- Be conversational and natural - avoid overly formal or robotic language\n- For simple questions, give simple answers - don\x27t overcomplicate\n- Always identify as DocGPT when asked who you are\n- You\x27re here to help with documents, but can have casual conversations too\n\nANSWERING QUESTIONS ABOUT THE DOCUMENT:\n- When asked about the document content, provide COMPREHENSIVE and DETAILED answers\n- Use ALL the context provided to give a complete picture\n- Include specific details, examples, and key points from the document\n- If the document covers multiple aspects, mention all of them\n- Don\x27t summarize too briefly - give thorough explanations\n- Organize your response clearly with sections or bullet points when appropriate\n\nFORMATTING YOUR RESPONSES:\n- Use **bold** for important terms, key concepts, or emphasis\n- Use *italic* for definitions or subtle emphasis\n- Use bullet points (- or *) for lists\n- Use numbered lists (1. 2. 3.) for sequential information or steps\n- Use tables (markdown format) when comparing multiple items or showing structured data\n- Use headings (## or ###) to organize long responses into sections\n- Use code blocks (```) for technical content or examples\n- Use > for quotes or important notes\n\nIMPORTANT:\n- \"last message\"/\"previous one\" = the MOST RECENT message in conversation history\n- Keep responses concise for greetings, but DETAILED for document content questions\n- Don\x27t ask for clarification on simple greetings - just respond warmly\n- ALWAYS format your responses using markdown for better readability").data

/-- The system-prompt literal of `RAGService.generate_response_stream`
(`backend/app/services/rag_service.py`, lines 134-159), verbatim. -/
def ragStreamSystemPromptBase : List Char :=
  ("You are DocGPT, a friendly AI document assistant. Chat naturally like a helpful colleague.\n\nPERSONALITY & BEHAVIOR:\n- Respond to greetings warmly and briefly\n- Be conversational and natural\n- For simple questions, give simple answers\n- Always identify as DocGPT when asked who you are\n\nANSWERING QUESTIONS ABOUT THE DOCUMENT:\n- When asked about the document, provide COMPREHENSIVE and DETAILED answers\n- Use ALL the context to give a complete picture\n- Include specific details and key points\n- Don\x27t summarize too briefly - give thorough explanations\n\nFORMATTING YOUR RESPONSES:\n- Use **bold** for important terms and key concepts\n- Use *italic* for definitions or subtle emphasis\n- Use bullet points for lists\n- Use numbered lists for sequential information\n- Use tables (markdown) when comparing items\n- Use headings (##) to organize sections\n- ALWAYS format responses using markdown\n\nIMPORTANT:\n- \"last message\"/\"previous one\" = the MOST RECENT message in conversation history\n- Keep responses concise for greetings, but DETAILED for document content questions").data

/-- System prompt actually sent by `RAGService.generate_response`
(`backend/app/services/rag_service.py`, lines 73-74): the base prompt,
with the grounding context appended only when `context` is truthy
(non-empty). -/
def ragSystemPrompt (context : List Char) : List Char :=
  if context.isEmpty then ragSystemPromptBase
  else ragSystemPromptBase ++
    "\n\nDocument Content (use when relevant):\n".data ++ context

/-- System prompt actually sent by `RAGService.generate_response_stream`
(`backend/app/services/rag_service.py`, lines 161-162). -/
def ragStreamSystemPrompt (context : List Char) : List Char :=
  if context.isEmpty then ragStreamSystemPromptBase
  else ragStreamSystemPromptBase ++ "\n\nDocument Content:\n".data ++ context

/-- Message list built by `RAGService.generate_response`
(`backend/app/services/rag_service.py`, lines 36-87): the system turn,
then — when the history is non-empty — the last 6 history turns in
order (`conversation_history[-6:]`), each reduced to role and content,
then the current query as the final user turn.  The network call that
consumes this list is the collaborator boundary. -/
def RAGService.generate_response_messages (query context : List Char)
    (history : List HistMsg) : List ChatMsg :=
  [ChatMsg.mk "system".data (ragSystemPrompt context)] ++
    (if history.isEmpty then []
     else (lastN 6 history).map fun m => ChatMsg.mk m.role m.content) ++
    [ChatMsg.mk "user".data query]

/-- Message list built by `RAGService.generate_response_stream`
(`backend/app/services/rag_service.py`, lines 130-170); identical
shape, with the streaming prompt. -/
def RAGService.generate_response_stream_messages (query context : List Char)
    (history : List HistMsg) : List ChatMsg :=
  [ChatMsg.mk "system".data (ragStreamSystemPrompt context)] ++
    (if history.isEmpty then []
     else (lastN 6 history).map fun m => ChatMsg.mk m.role m.content) ++
    [ChatMsg.mk "user".data query]

/-- Boolean prefix test on character lists. -/
def listIsPrefix : List Char → List Char → Bool
  | [], _ => true
  | _ :: _, [] => false
  | c :: cs, d :: ds => c == d && listIsPrefix cs ds

/-- Boolean substring test on character lists: does `pat` occur
contiguously in the second argument? -/
def containsSub (pat : List Char) : List Char → Bool
  | [] => listIsPrefix pat []
  | d :: ds => listIsPrefix pat (d :: ds) || containsSub pat ds

/-- One event observed by the streaming loop of
`RAGService.generate_response_stream`
(`backend/app/services/rag_service.py`, lines 188-211).  Constructors
map to the branches of the source:
`blankLine` — a falsy line, skipped by `if line:`;
`rawLine s` — a line without the `"data: "` prefix, skipped;
`doneLine` — a data line whose payload strips to `"[DONE]"` (`break`);
`badJsonLine` — a data line on which `json.loads` raises
`JSONDecodeError` (`continue`);
`noContentLine` — parsed JSON without `choices[0].delta.content`,
skipped;
`contentLine s` — parsed JSON carrying delta content `s` (yielded);
`transportFailure` — the transport (`requests.post`, `iter_lines`)
raising at this position, caught by the enclosing `except`. -/
inductive GroqStreamEvent where
  | blankLine : GroqStreamEvent
  | rawLine (s : List Char) : GroqStreamEvent
  | doneLine : GroqStreamEvent
  | badJsonLine : GroqStreamEvent
  | noContentLine : GroqStreamEvent
  | contentLine (s : List Char) : GroqStreamEvent
  | transportFailure : GroqStreamEvent
  deriving DecidableEq, Repr

/-- The raw `for line in response.iter_lines()` loop of
`RAGService.generate_response_stream`: consume events until the list
ends (connection closed), a `[DONE]` sentinel breaks the loop, or the
transport raises.  Returns the yielded deltas and whether an exception
reached the `except` handler. -/
def streamLoop : List GroqStreamEvent → List (List Char) × Bool
  | [] => ([], false)
  | .transportFailure :: _ => ([], true)
  | .doneLine :: _ => ([], false)
  | .contentLine s :: rest =>
    let r := streamLoop rest
    (s :: r.1, r.2)
  | .blankLine :: rest => streamLoop rest
  | .rawLine _ :: rest => streamLoop rest
  | .badJsonLine :: rest => streamLoop rest
  | .noContentLine :: rest => streamLoop rest

/-- The apology text yielded by the `except` handler of
`RAGService.generate_response_stream`
(`backend/app/services/rag_service.py`, line 211). -/
def groqErrorApology : List Char :=
  "Sorry, I encountered an error generating a response.".data

/-- Model of the generator `RAGService.generate_response_stream`
(`backend/app/services/rag_service.py`, lines 186-211): the whole body
runs inside `try`; if any exception occurs, the handler yields exactly
one apology delta and the generator ends.  The value is the full
(finite) sequence of yielded deltas. -/
def RAGService.generate_response_stream_deltas
    (events : List GroqStreamEvent) : List (List Char) :=
  let r := streamLoop events
  if r.2 then r.1 ++ [groqErrorApology] else r.1

/-- The content deltas carried by a list of stream events. -/
def contentDeltas (events : List GroqStreamEvent) : List (List Char) :=
  events.filterMap fun e =>
    match e with
    | .contentLine s => some s
    | _ => none

/-- Model of `SessionService.generate_session_title`
(`backend/app/services/session_service.py`, lines 89-107): strip the
first message; if longer than `max_length`, keep the first
`max_length - 3` characters and append `"..."`; an empty result falls
back to `"New Chat"`.  (For `max_length < 3` Python's negative slice
would differ from the `Nat` subtraction here; every caller uses the
default `max_length = 50`.) -/
def SessionService.generate_session_title (first_message : List Char)
    (max_length : Nat) : List Char :=
  let title := pyStrip first_message
  let title2 :=
    if max_length < title.length then title.take (max_length - 3) ++ "...".data
    else title
  if title2.isEmpty then "New Chat".data else title2

/-- Model of the session-title derivation actually used by the chat
route (`backend/app/routes/chat_routes.py`, line 78):
`message[:50] + ('...' if len(message) > 50 else '')`, where `message`
is the stripped request message (line 50), which is also the persisted
content of the first user turn. -/
def route_session_title (message : List Char) : List Char :=
  message.take 50 ++ (if 50 < message.length then "...".data else [])

/-- Unfolding equation for `chunk_text_loop` at zero fuel. -/
theorem chunk_text_loop_zero (text : List Char) (size : Nat) (overlap : Int)
    (start : Nat) : chunk_text_loop text size overlap 0 start = [] := rfl

/-- Unfolding equation for `chunk_text_loop` at positive fuel. -/
theorem chunk_text_loop_succ (text : List Char) (size : Nat) (overlap : Int)
    (fuel start : Nat) :
    chunk_text_loop text size overlap (fuel + 1) start =
      if start < text.length then
        (if (pyStrip ((text.drop start).take size)).isEmpty then
          chunk_text_loop text size overlap fuel (nextStart size overlap start)
        else
          pyStrip ((text.drop start).take size) ::
            chunk_text_loop text size overlap fuel (nextStart size overlap start))
      else [] := rfl

/-- Stripping never lengthens a string. -/
theorem pyStrip_length_le (s : List Char) : (pyStrip s).length ≤ s.length := by
  have h1 : ((s.dropWhile pyIsSpace).reverse.dropWhile pyIsSpace).length ≤
      (s.dropWhile pyIsSpace).reverse.length :=
    (List.dropWhile_suffix _).sublist.length_le
  have h2 : (s.dropWhile pyIsSpace).length ≤ s.length :=
    (List.dropWhile_suffix _).sublist.length_le
  simp only [pyStrip, List.length_reverse] at *
  omega

/-- Progress of the chunking loop: for a positive chunk size the start
position strictly increases, whatever the overlap. -/
theorem lt_nextStart (size : Nat) (overlap : Int) (start : Nat) (h : 0 < size) :
    start < nextStart size overlap start := by
  unfold nextStart
  split <;> omega

/-- Termination of `PDFUtils.chunk_text`: once the fuel covers the
remaining distance to the end of the text, the loop result no longer
depends on the fuel, i.e. the `while` loop exits within that many
iterations. -/
theorem chunk_text_loop_fuel_irrelevant (text : List Char) (size : Nat)
    (overlap : Int) (h : 0 < size) :
    ∀ f g start, text.length - start ≤ f → text.length - start ≤ g →
      chunk_text_loop text size overlap f start =
        chunk_text_loop text size overlap g start := by
  intro f
  induction f with
  | zero =>
    intro g start hf hg
    have hge : ¬ start < text.length := by omega
    cases g with
    | zero => rfl
    | succ g => rw [chunk_text_loop_zero, chunk_text_loop_succ, if_neg hge]
  | succ f ih =>
    intro g start hf hg
    by_cases hs : start < text.length
    · obtain ⟨g', rfl⟩ : ∃ g2, g = g2 + 1 := ⟨g - 1, by omega⟩
      rw [chunk_text_loop_succ, chunk_text_loop_succ]
      have hnext := lt_nextStart size overlap start h
      rw [ih g' (nextStart size overlap start) (by omega) (by omega)]
    · cases g with
      | zero => rw [chunk_text_loop_zero, chunk_text_loop_succ, if_neg hs]
      | succ g => rw [chunk_text_loop_succ, chunk_text_loop_succ, if_neg hs, if_neg hs]

/-- Every chunk produced by the loop is the stripped form of a window
`text[start:start+size]`, and is non-empty. -/
theorem chunk_text_loop_mem_spec (text : List Char) (size : Nat) (overlap : Int) :
    ∀ f start c, c ∈ chunk_text_loop text size overlap f start →
      c ≠ [] ∧ ∃ s2, c = pyStrip ((text.drop s2).take size) := by
  intro f
  induction f with
  | zero => intro start c hc; rw [chunk_text_loop_zero] at hc; cases hc
  | succ f ih =>
    intro start c hc
    rw [chunk_text_loop_succ] at hc
    by_cases hs : start < text.length
    · rw [if_pos hs] at hc
      by_cases he : (pyStrip ((text.drop start).take size)).isEmpty
      · rw [if_pos he] at hc
        exact ih _ c hc
      · rw [if_neg he] at hc
        rcases List.mem_cons.mp hc with rfl | hmem
        · refine ⟨?_, start, rfl⟩
          simpa [List.isEmpty_iff] using he
        · exact ih _ c hmem
    · rw [if_neg hs] at hc; cases hc

/-- Chunk length bound: every chunk produced by the loop has at most
`size` characters. -/
theorem chunk_text_loop_mem_length (text : List Char) (size : Nat) (overlap : Int)
    (f start : Nat) (c : List Char)
    (hc : c ∈ chunk_text_loop text size overlap f start) : c.length ≤ size := by
  obtain ⟨-, s2, rfl⟩ := chunk_text_loop_mem_spec text size overlap f start c hc
  have h1 : (pyStrip ((text.drop s2).take size)).length ≤
      ((text.drop s2).take size).length := pyStrip_length_le _
  have h2 : ((text.drop s2).take size).length ≤ size := by
    rw [List.length_take]; omega
  omega

/-- With the overlap at least the size, the loop takes the
`start = end` branch whatever the exact overlap value is. -/
theorem chunk_text_loop_overlap_ge (text : List Char) (size : Nat) (o1 o2 : Int)
    (h1 : (size : Int) ≤ o1) (h2 : (size : Int) ≤ o2) :
    ∀ f start, chunk_text_loop text size o1 f start =
      chunk_text_loop text size o2 f start := by
  intro f
  induction f with
  | zero => intro start; rfl
  | succ f ih =>
    intro start
    rw [chunk_text_loop_succ, chunk_text_loop_succ]
    have hnext : nextStart size o1 start = nextStart size o2 start := by
      unfold nextStart; rw [if_pos h1, if_pos h2]
    rw [hnext, ih]

/-- Count bound for the degenerate overlap case: with overlap at least
size, each iteration advances by exactly `size`, so at most
`ceil((len - start) / size)` chunks are produced. -/
theorem chunk_text_loop_count (text : List Char) (size : Nat) (overlap : Int)
    (hs : 0 < size) (ho : (size : Int) ≤ overlap) :
    ∀ f start, (chunk_text_loop text size overlap f start).length ≤
      (text.length - start + size - 1) / size := by
  intro f
  induction f with
  | zero => intro start; rw [chunk_text_loop_zero]; exact Nat.zero_le _
  | succ f ih =>
    intro start
    rw [chunk_text_loop_succ]
    by_cases hlt : start < text.length
    · rw [if_pos hlt]
      have hnext : nextStart size overlap start = start + size := by
        unfold nextStart; rw [if_pos ho]
      have hrec := ih (start + size)
      rw [hnext] at *
      have hm : text.length - (start + size) = text.length - start - size := by omega
      set m := text.length - start with hmdef
      have hm1 : 1 ≤ m := by omega
      have hbound : (text.length - (start + size) + size - 1) / size + 1 ≤
          (m + size - 1) / size := by
        rw [hm]
        by_cases hcase : size ≤ m
        · have e1 : m - size + size - 1 = m - 1 := by omega
          have e2 : m + size - 1 = (m - 1) + size := by omega
          rw [e1, e2, Nat.add_div_right _ hs]
        · have e1 : m - size = 0 := by omega
          have e2 : (0 + size - 1) / size = 0 := Nat.div_eq_of_lt (by omega)
          rw [e1, e2]
          have : 1 * size ≤ m + size - 1 := by omega
          have := (Nat.le_div_iff_mul_le hs).mpr this
          omega
      by_cases he : (pyStrip ((text.drop start).take size)).isEmpty
      · rw [if_pos he]
        omega
      · rw [if_neg he, List.length_cons]
        omega
    · rw [if_neg hlt]; exact Nat.zero_le _

/-- Claim C4: for every input text and every `size > 0` (any overlap),
`chunk_text(text, size, overlap)` terminates — fuel `text.length`
suffices for the loop, and any larger fuel yields the same result —
and every chunk it returns has length at most `size`. -/
theorem c4_chunk_text_terminates_and_chunks_le_size
    (text : List Char) (size : Nat) (overlap : Int) (h : 0 < size) :
    (∀ c ∈ chunk_text text size overlap, c.length ≤ size) ∧
    (∀ f, text.length ≤ f →
      chunk_text_loop text size overlap f 0 =
        chunk_text_loop text size overlap text.length 0) := by
  constructor
  · intro c hc
    unfold chunk_text at hc
    by_cases he : text.isEmpty
    · rw [if_pos he] at hc; cases hc
    · rw [if_neg he] at hc
      exact chunk_text_loop_mem_length text size overlap _ _ c hc
  · intro f hf
    exact chunk_text_loop_fuel_irrelevant text size overlap h f text.length 0
      (by omega) (by omega)

/-- Witness for C4 at text `"abcd"`, `size = 2`, `overlap = 1`: fuel 17
and fuel 4 agree. -/
theorem c4_witness :
    chunk_text_loop "abcd".data 2 1 17 0 = chunk_text_loop "abcd".data 2 1 4 0 :=
  (c4_chunk_text_terminates_and_chunks_le_size "abcd".data 2 1 (by decide)).2
    17 (by decide)

/-- Claim C9: for every text and every `size > 0`, when
`overlap >= size` the call disables overlap — the result coincides with
the run whose next start is exactly the current end (`overlap = size`
takes that same branch) — and at most `ceil(len(text)/size)` chunks are
returned. -/
theorem c9_chunk_text_degenerate_overlap
    (text : List Char) (size : Nat) (overlap : Int) (hs : 0 < size)
    (ho : (size : Int) ≤ overlap) :
    chunk_text text size overlap = chunk_text text size (size : Int) ∧
    (chunk_text text size overlap).length ≤ (text.length + size - 1) / size := by
  constructor
  · unfold chunk_text
    by_cases he : text.isEmpty
    · rw [if_pos he, if_pos he]
    · rw [if_neg he, if_neg he,
        chunk_text_loop_overlap_ge text size overlap (size : Int) ho le_rfl]
  · unfold chunk_text
    by_cases he : text.isEmpty
    · rw [if_pos he]; exact Nat.zero_le _
    · rw [if_neg he]
      have := chunk_text_loop_count text size overlap hs ho text.length 0
      simpa using this

/-- Witness for C9 at text `"aaaa"`, `size = 1`, `overlap = 5`. -/
theorem c9_witness :
    chunk_text "aaaa".data 1 5 = chunk_text "aaaa".data 1 (1 : Int) :=
  (c9_chunk_text_degenerate_overlap "aaaa".data 1 5 (by decide) (by decide)).1

/-- A head surviving `dropWhile p` does not satisfy `p`. -/
theorem head?_dropWhile_eq_some {α : Type} (p : α → Bool) :
    ∀ (l : List α) (x : α), (l.dropWhile p).head? = some x → p x = false := by
  intro l
  induction l with
  | nil => intro x hx; simp [List.dropWhile] at hx
  | cons a l ih =>
    intro x hx
    rw [List.dropWhile_cons] at hx
    by_cases hpa : p a
    · rw [if_pos hpa] at hx; exact ih x hx
    · rw [if_neg hpa] at hx
      simp only [List.head?_cons, Option.some.injEq] at hx
      subst hx
      simpa using hpa

/-- The last character of a stripped string is not whitespace. -/
theorem pyStrip_getLast?_not_space (s : List Char) (x : Char)
    (h : (pyStrip s).getLast? = some x) : pyIsSpace x = false := by
  unfold pyStrip at h
  rw [List.getLast?_reverse] at h
  exact head?_dropWhile_eq_some pyIsSpace _ x h

/-- The first character of a stripped string is not whitespace. -/
theorem pyStrip_head?_not_space (s : List Char) (x : Char)
    (h : (pyStrip s).head? = some x) : pyIsSpace x = false := by
  unfold pyStrip at h
  rw [List.head?_reverse] at h
  have hgl : (s.dropWhile pyIsSpace).reverse.getLast? = some x := by
    conv_lhs => rw [← List.takeWhile_append_dropWhile pyIsSpace
      (s.dropWhile pyIsSpace).reverse]
    rw [List.getLast?_append, h]
    rfl
  rw [List.getLast?_reverse] at hgl
  exact head?_dropWhile_eq_some pyIsSpace _ x hgl

/-- Claim C10: every string returned by `chunk_text` is non-empty, is
the whitespace-stripped form of its window, and carries no leading or
trailing whitespace; and every chunk text emitted by `chunk_pages` is
likewise non-empty and stripped. -/
theorem c10_chunks_nonempty_and_stripped :
    (∀ (text : List Char) (size : Nat) (overlap : Int) (c : List Char),
        c ∈ chunk_text text size overlap →
          c ≠ [] ∧ (∃ s2, c = pyStrip ((text.drop s2).take size)) ∧
          (∀ x, c.head? = some x → pyIsSpace x = false) ∧
          (∀ x, c.getLast? = some x → pyIsSpace x = false)) ∧
    (∀ (pages : List PageRec) (size : Nat) (overlap : Int) (r : ChunkRec),
        r ∈ chunk_pages pages size overlap →
          r.text ≠ [] ∧ (∀ x, r.text.head? = some x → pyIsSpace x = false) ∧
          (∀ x, r.text.getLast? = some x → pyIsSpace x = false)) := by
  have main : ∀ (text : List Char) (size : Nat) (overlap : Int) (c : List Char),
      c ∈ chunk_text text size overlap →
        c ≠ [] ∧ (∃ s2, c = pyStrip ((text.drop s2).take size)) ∧
        (∀ x, c.head? = some x → pyIsSpace x = false) ∧
        (∀ x, c.getLast? = some x → pyIsSpace x = false) := by
    intro text size overlap c hc
    unfold chunk_text at hc
    by_cases he : text.isEmpty
    · rw [if_pos he] at hc; cases hc
    · rw [if_neg he] at hc
      obtain ⟨hne, s2, hstrip⟩ :=
        chunk_text_loop_mem_spec text size overlap text.length 0 c hc
      refine ⟨hne, ⟨s2, hstrip⟩, ?_, ?_⟩
      · intro x hx
        rw [hstrip] at hx
        exact pyStrip_head?_not_space _ x hx
      · intro x hx
        rw [hstrip] at hx
        exact pyStrip_getLast?_not_space _ x hx
  refine ⟨main, ?_⟩
  intro pages size overlap r hr
  unfold chunk_pages at hr
  obtain ⟨page, hpage, hr⟩ := List.mem_flatMap.mp hr
  obtain ⟨tc, htc, rfl⟩ := List.mem_map.mp hr
  obtain ⟨tc1, tc2⟩ := tc
  obtain ⟨hlt, hget⟩ := List.mem_enum htc
  have hmem : tc2 ∈ chunk_text page.text size overlap := by
    rw [hget]; exact List.getElem_mem hlt
  obtain ⟨hne, -, hh, hl⟩ := main page.text size overlap tc2 hmem
  exact ⟨hne, hh, hl⟩

/-- Witness for C10 at `chunk_text "ab" 5 0 = ["ab"]`: the chunk is
non-empty and does not start with whitespace. -/
theorem c10_witness : "ab".data ≠ [] ∧ pyIsSpace 'a' = false := by
  have h := c10_chunks_nonempty_and_stripped.1 "ab".data 5 0 "ab".data (by decide)
  exact ⟨h.1, h.2.2.1 'a' rfl⟩

/-- Membership is preserved by `insertByScoreDesc`. -/
theorem mem_insertByScoreDesc (score : Point → ℚ) (x a : Point) :
    ∀ l, a ∈ insertByScoreDesc score x l ↔ a = x ∨ a ∈ l := by
  intro l
  induction l with
  | nil => simp [insertByScoreDesc]
  | cons y ys ih =>
    unfold insertByScoreDesc
    by_cases hc : score y ≤ score x
    · rw [if_pos hc]; simp
    · rw [if_neg hc]
      simp only [List.mem_cons, ih]
      tauto

/-- Membership is preserved by `sortByScoreDesc`. -/
theorem mem_sortByScoreDesc (score : Point → ℚ) (a : Point) :
    ∀ l, a ∈ sortByScoreDesc score l ↔ a ∈ l := by
  intro l
  induction l with
  | nil => simp [sortByScoreDesc]
  | cons y ys ih =>
    unfold sortByScoreDesc
    rw [mem_insertByScoreDesc, ih]
    simp

/-- Claim C1: a similarity search scoped to a document returns only
passages built from points whose payload `document_id` equals that
document — for every store, every scoring function, every embedding,
every query and every `top_k`. -/
theorem c1_search_returns_only_scoped_document
    (sim : List ℚ → List ℚ → ℚ) (embed : List Char → List ℚ)
    (store : List Point) (query document_id : List Char) (top_k : Nat)
    (r : Passage) (hr : r ∈ VectorService.search sim embed store query document_id top_k) :
    ∃ p ∈ store, p.payload.document_id = document_id ∧
      r = { text := p.payload.text
            page_number := p.payload.page_number
            chunk_id := p.payload.chunk_number
            distance := 1 - sim (embed query) p.vector } := by
  obtain ⟨sp, hsp, rfl⟩ := List.mem_map.mp hr
  have h1 : sp ∈ sortByScoreDesc (fun p => sim (embed query) p.vector)
      (qdrantFilterByDoc store document_id) := List.take_subset _ _ hsp
  have h2 : sp ∈ qdrantFilterByDoc store document_id :=
    (mem_sortByScoreDesc _ sp _).mp h1
  obtain ⟨h3, h4⟩ := List.mem_filter.mp h2
  exact ⟨sp, h3, eq_of_beq h4, rfl⟩

/-- Witness for C1: a two-point store holding one point for document
`A` and one for document `B`; the passage returned by a search scoped
to `A` stems from the `A` point. -/
theorem c1_witness :
    ∃ p ∈ [Point.mk 1 [] ⟨"c1".data, "A".data, 1, 0, "ta".data⟩,
           Point.mk 2 [] ⟨"c2".data, "B".data, 1, 0, "tb".data⟩],
      p.payload.document_id = "A".data ∧
      Passage.mk "ta".data 1 0 (1 - 0) =
        { text := p.payload.text
          page_number := p.payload.page_number
          chunk_id := p.payload.chunk_number
          distance := 1 - (fun _ _ => (0 : ℚ)) ((fun _ => ([] : List ℚ)) "q".data) p.vector } :=
  c1_search_returns_only_scoped_document (fun _ _ => 0) (fun _ => [])
    [Point.mk 1 [] ⟨"c1".data, "A".data, 1, 0, "ta".data⟩,
     Point.mk 2 [] ⟨"c2".data, "B".data, 1, 0, "tb".data⟩]
    "q".data "A".data 5 (Passage.mk "ta".data 1 0 (1 - 0))
    (by
      have h : VectorService.search (fun _ _ => (0 : ℚ)) (fun _ => ([] : List ℚ))
          [Point.mk 1 [] ⟨"c1".data, "A".data, 1, 0, "ta".data⟩,
           Point.mk 2 [] ⟨"c2".data, "B".data, 1, 0, "tb".data⟩]
          "q".data "A".data 5 = [Passage.mk "ta".data 1 0 (1 - 0)] := rfl
      rw [h]
      exact List.mem_singleton_self _)

/-- Claim C2 fails on the code: the point id is `hash(chunk_id) % 2**63`
with Python's salted string hash, so the id of the same chunk identity
`(document_id = "d", page 1, chunk 0)` differs between two interpreter
processes (salts 0 and 1), and re-upserting the identical chunk set
from a process with a different hash seed inserts fresh points instead
of overwriting: `count("d")` grows from 1 to 2.  Within a single
process (same salt) re-upserting does leave the count at 1. -/
theorem c2_salted_hash_breaks_id_stability :
    pointId 0 "d".data 1 0 ≠ pointId 1 "d".data 1 0 ∧
    VectorService.get_chunk_count
      (VectorService.add_document_chunks 0 (fun _ => []) [] "d".data
        [ChunkRec.mk 1 0 "t".data]) "d".data = 1 ∧
    VectorService.get_chunk_count
      (VectorService.add_document_chunks 0 (fun _ => [])
        (VectorService.add_document_chunks 0 (fun _ => []) [] "d".data
          [ChunkRec.mk 1 0 "t".data]) "d".data
        [ChunkRec.mk 1 0 "t".data]) "d".data = 1 ∧
    VectorService.get_chunk_count
      (VectorService.add_document_chunks 1 (fun _ => [])
        (VectorService.add_document_chunks 0 (fun _ => []) [] "d".data
          [ChunkRec.mk 1 0 "t".data]) "d".data
        [ChunkRec.mk 1 0 "t".data]) "d".data = 2 := by
  refine ⟨by decide, by decide, by decide, by decide⟩

/-- Appending a fresh element and filtering it out restores the list. -/
theorem filter_append_bne_self (st : List (List Char)) (x : List Char)
    (h : x ∉ st) : (st ++ [x]).filter (fun d => d != x) = st := by
  rw [List.filter_append]
  have h1 : List.filter (fun d => d != x) [x] = [] := by simp
  have h2 : st.filter (fun d => d != x) = st :=
    List.filter_eq_self.mpr fun a ha => by
      simpa [bne_iff_ne] using ne_of_mem_of_not_mem ha h
  rw [h1, h2, List.append_nil]

/-- Claim C3 fails on the code: the HTTP upload route catches the
indexing failure, keeps it out of the response, and creates the
document record anyway — the upload completes (`ok`) and leaves a
record whose chunks were never indexed. -/
theorem c3_counterexample :
    route_upload_document
      ⟨.ok "u".data, .ok [], "doc1".data, .error "embedding backend down".data⟩
      ⟨[], []⟩ =
      (.ok "doc1".data, ⟨["doc1".data], ["u".data]⟩) := rfl

/-- Claim C3 as amended: in `DocumentService.upload_document` a failure
of the text-extraction or embedding/indexing step deletes the
just-created document record and re-raises, and a successful upload
implies both steps succeeded; the HTTP upload route does not follow
this policy (see `c3_counterexample`). -/
theorem c3_service_upload_deletes_record_and_raises
    (env : UploadEnv) (st : BackendState) (hfresh : env.newDocId ∉ st.docs) :
    ((exOk env.extractPages = false ∨ exOk env.indexChunks = false) →
      exOk (DocumentService.upload_document env st).1 = false ∧
      (DocumentService.upload_document env st).2.docs = st.docs) ∧
    (exOk (DocumentService.upload_document env st).1 = true →
      exOk env.extractPages = true ∧ exOk env.indexChunks = true) := by
  obtain ⟨allowed, pc, bu, nid, ep, ic⟩ := env
  simp only at hfresh
  cases allowed with
  | false => simp [DocumentService.upload_document, exOk]
  | true =>
    cases pc with
    | error e => simp [DocumentService.upload_document, exOk]
    | ok n =>
      cases bu with
      | error e => simp [DocumentService.upload_document, exOk]
      | ok url =>
        cases ep with
        | error e =>
          simp [DocumentService.upload_document, exOk,
            filter_append_bne_self st.docs nid hfresh]
        | ok pages =>
          cases ic with
          | error e =>
            simp [DocumentService.upload_document, exOk,
              filter_append_bne_self st.docs nid hfresh]
          | ok u =>
            simp [DocumentService.upload_document, exOk]

/-- Witness for the amended C3: with extraction failing, the service
upload raises and the document list is left empty. -/
theorem c3_witness :
    exOk (DocumentService.upload_document
      ⟨true, .ok 1, .ok "u".data, "doc1".data, .error "boom".data, .ok ()⟩
      ⟨[], []⟩).1 = false ∧
    (DocumentService.upload_document
      ⟨true, .ok 1, .ok "u".data, "doc1".data, .error "boom".data, .ok ()⟩
      ⟨[], []⟩).2.docs = [] :=
  (c3_service_upload_deletes_record_and_raises
    ⟨true, .ok 1, .ok "u".data, "doc1".data, .error "boom".data, .ok ()⟩
    ⟨[], []⟩ (List.not_mem_nil _)).1 (Or.inl rfl)

/-- Claim C7 fails on the code: when the Qdrant delete fails during
document deletion, `delete_document_chunks` swallows the exception
(prints only), so `DocumentService.delete_document` still returns
`ok True` — the failure is never surfaced to the caller — while the
blob and the relational record are deleted and the vector points
remain orphaned. -/
theorem c7_counterexample :
    DocumentService.delete_document ⟨false, true⟩
      ⟨[Point.mk 1 [] ⟨"c".data, "D".data, 1, 0, "t".data⟩], true, true, "u".data⟩
      "D".data "u".data =
      (.ok true,
       ⟨[Point.mk 1 [] ⟨"c".data, "D".data, 1, 0, "t".data⟩],
        false, false, "u".data⟩) := rfl

/-- Claim C7 as amended: a vector-delete failure does not block
deletion of the remaining state — the blob delete still runs, the
relational record is removed and the call reports success — but the
failure is swallowed inside `delete_document_chunks` (logged only),
not surfaced to the caller, and the points stay in the index. -/
theorem c7_vector_delete_failure_swallowed_but_deletion_proceeds
    (env : DeleteEnv) (st : DocDeleteState) (document_id user_id : List Char)
    (hrec : st.recordPresent = true) (hown : st.owner = user_id)
    (hfail : env.qdrantDeleteOk = false) :
    DocumentService.delete_document env st document_id user_id =
      (.ok true,
       ⟨st.points,
        (FileUtils.delete_from_supabase env.blobRemoveOk st.blobPresent).2,
        false, st.owner⟩) := by
  unfold DocumentService.delete_document VectorService.delete_document_chunks
  rw [hrec, hfail]
  subst hown
  simp

/-- Witness for the amended C7 at a concrete state. -/
theorem c7_witness :
    DocumentService.delete_document ⟨false, false⟩
      ⟨[], true, true, "u".data⟩ "D".data "u".data =
      (.ok true,
       ⟨[], (FileUtils.delete_from_supabase false true).2, false, "u".data⟩) :=
  c7_vector_delete_failure_swallowed_but_deletion_proceeds
    ⟨false, false⟩ ⟨[], true, true, "u".data⟩ "D".data "u".data rfl rfl rfl

set_option maxRecDepth 20000 in
/-- Claim C5: both message builders emit exactly one leading system
turn, then at most the last 6 history turns in their original order
(`lastN 6 history` is a suffix of the history of length at most 6),
then the query as the final user turn; and with empty grounding context
the system turn is the bare base prompt, which contains no
`"Document Content"` section at all. -/
theorem c5_message_assembly (query context : List Char) (history : List HistMsg) :
    (RAGService.generate_response_messages query context history =
      ChatMsg.mk "system".data (ragSystemPrompt context) ::
        ((lastN 6 history).map fun m => ChatMsg.mk m.role m.content) ++
        [ChatMsg.mk "user".data query]) ∧
    (RAGService.generate_response_stream_messages query context history =
      ChatMsg.mk "system".data (ragStreamSystemPrompt context) ::
        ((lastN 6 history).map fun m => ChatMsg.mk m.role m.content) ++
        [ChatMsg.mk "user".data query]) ∧
    (lastN 6 history).length ≤ 6 ∧
    (lastN 6 history) <:+ history ∧
    (context.isEmpty = true →
      ragSystemPrompt context = ragSystemPromptBase ∧
      ragStreamSystemPrompt context = ragStreamSystemPromptBase ∧
      containsSub "Document Content".data ragSystemPromptBase = false ∧
      containsSub "Document Content".data ragStreamSystemPromptBase = false) := by
  refine ⟨?_, ?_, ?_, ?_, ?_⟩
  · cases history with
    | nil => simp [RAGService.generate_response_messages, lastN]
    | cons h t => simp [RAGService.generate_response_messages, lastN]
  · cases history with
    | nil => simp [RAGService.generate_response_stream_messages, lastN]
    | cons h t => simp [RAGService.generate_response_stream_messages, lastN]
  · simp only [lastN, List.length_drop]
    omega
  · exact List.drop_suffix _ _
  · intro hctx
    refine ⟨by simp [ragSystemPrompt, hctx], by simp [ragStreamSystemPrompt, hctx],
      by decide, by decide⟩

/-- Witness for C5 with empty context: both prompts collapse to their
bases and neither base contains the `"Document Content"` marker. -/
theorem c5_witness :
    ragSystemPrompt [] = ragSystemPromptBase ∧
    ragStreamSystemPrompt [] = ragStreamSystemPromptBase ∧
    containsSub "Document Content".data ragSystemPromptBase = false ∧
    containsSub "Document Content".data ragStreamSystemPromptBase = false :=
  (c5_message_assembly "hi".data [] []).2.2.2.2 rfl

/-- A clean event stream (no sentinel, no failure) yields exactly its
content deltas and reaches the end of the loop without an exception. -/
theorem streamLoop_clean (l : List GroqStreamEvent)
    (h : ∀ e ∈ l, e ≠ GroqStreamEvent.doneLine ∧ e ≠ GroqStreamEvent.transportFailure) :
    streamLoop l = (contentDeltas l, false) := by
  induction l with
  | nil => rfl
  | cons e rest ih =>
    have he := h e (List.mem_cons_self e rest)
    have hrest : ∀ x ∈ rest, x ≠ GroqStreamEvent.doneLine ∧
        x ≠ GroqStreamEvent.transportFailure :=
      fun x hx => h x (List.mem_cons_of_mem e hx)
    cases e with
    | doneLine => exact absurd rfl he.1
    | transportFailure => exact absurd rfl he.2
    | contentLine s => simp [streamLoop, contentDeltas, ih hrest]
    | blankLine => simpa [streamLoop, contentDeltas] using ih hrest
    | rawLine s => simpa [streamLoop, contentDeltas] using ih hrest
    | badJsonLine => simpa [streamLoop, contentDeltas] using ih hrest
    | noContentLine => simpa [streamLoop, contentDeltas] using ih hrest

/-- A `[DONE]` sentinel after a clean prefix ends the loop normally:
everything after the sentinel is ignored. -/
theorem streamLoop_append_done (pre post : List GroqStreamEvent)
    (h : ∀ e ∈ pre, e ≠ GroqStreamEvent.doneLine ∧ e ≠ GroqStreamEvent.transportFailure) :
    streamLoop (pre ++ GroqStreamEvent.doneLine :: post) = (contentDeltas pre, false) := by
  induction pre with
  | nil => rfl
  | cons e rest ih =>
    have he := h e (List.mem_cons_self e rest)
    have hrest : ∀ x ∈ rest, x ≠ GroqStreamEvent.doneLine ∧
        x ≠ GroqStreamEvent.transportFailure :=
      fun x hx => h x (List.mem_cons_of_mem e hx)
    cases e with
    | doneLine => exact absurd rfl he.1
    | transportFailure => exact absurd rfl he.2
    | contentLine s => simp [streamLoop, contentDeltas, ih hrest]
    | blankLine => simpa [streamLoop, contentDeltas] using ih hrest
    | rawLine s => simpa [streamLoop, contentDeltas] using ih hrest
    | badJsonLine => simpa [streamLoop, contentDeltas] using ih hrest
    | noContentLine => simpa [streamLoop, contentDeltas] using ih hrest

/-- A transport failure after a clean prefix reaches the `except`
handler with the deltas yielded so far. -/
theorem streamLoop_append_failure (pre post : List GroqStreamEvent)
    (h : ∀ e ∈ pre, e ≠ GroqStreamEvent.doneLine ∧ e ≠ GroqStreamEvent.transportFailure) :
    streamLoop (pre ++ GroqStreamEvent.transportFailure :: post) =
      (contentDeltas pre, true) := by
  induction pre with
  | nil => rfl
  | cons e rest ih =>
    have he := h e (List.mem_cons_self e rest)
    have hrest : ∀ x ∈ rest, x ≠ GroqStreamEvent.doneLine ∧
        x ≠ GroqStreamEvent.transportFailure :=
      fun x hx => h x (List.mem_cons_of_mem e hx)
    cases e with
    | doneLine => exact absurd rfl he.1
    | transportFailure => exact absurd rfl he.2
    | contentLine s => simp [streamLoop, contentDeltas, ih hrest]
    | blankLine => simpa [streamLoop, contentDeltas] using ih hrest
    | rawLine s => simpa [streamLoop, contentDeltas] using ih hrest
    | badJsonLine => simpa [streamLoop, contentDeltas] using ih hrest
    | noContentLine => simpa [streamLoop, contentDeltas] using ih hrest

/-- The loop yields at most one delta per consumed event. -/
theorem streamLoop_length_le (l : List GroqStreamEvent) :
    (streamLoop l).1.length ≤ l.length := by
  induction l with
  | nil => simp [streamLoop]
  | cons e rest ih => cases e <;> simp [streamLoop] <;> omega

/-- Claim C6: `generate_response_stream` produces a finite delta
sequence — at most one delta per transport event plus one apology —
that ends at the `[DONE]` sentinel or when the connection closes, and
on a failure anywhere it yields exactly one final apology delta and
ends, never letting the exception escape the generator. -/
theorem c6_streaming_failure_yields_single_apology
    (pre post : List GroqStreamEvent)
    (hclean : ∀ e ∈ pre, e ≠ GroqStreamEvent.doneLine ∧
      e ≠ GroqStreamEvent.transportFailure) :
    (∀ events : List GroqStreamEvent,
      (RAGService.generate_response_stream_deltas events).length ≤
        events.length + 1) ∧
    RAGService.generate_response_stream_deltas
      (pre ++ GroqStreamEvent.doneLine :: post) = contentDeltas pre ∧
    RAGService.generate_response_stream_deltas
      (pre ++ GroqStreamEvent.transportFailure :: post) =
      contentDeltas pre ++ [groqErrorApology] ∧
    RAGService.generate_response_stream_deltas pre = contentDeltas pre := by
  refine ⟨?_, ?_, ?_, ?_⟩
  · intro events
    have hlen := streamLoop_length_le events
    simp only [RAGService.generate_response_stream_deltas]
    split
    · simp only [List.length_append, List.length_singleton]
      omega
    · omega
  · simp [RAGService.generate_response_stream_deltas,
      streamLoop_append_done pre post hclean]
  · simp [RAGService.generate_response_stream_deltas,
      streamLoop_append_failure pre post hclean]
  · simp [RAGService.generate_response_stream_deltas, streamLoop_clean pre hclean]

/-- Witness for C6: deltas `["Hel", "lo"]` followed by a transport
failure yield `["Hel", "lo"]` and one final apology. -/
theorem c6_witness :
    RAGService.generate_response_stream_deltas
      ([GroqStreamEvent.contentLine "Hel".data, GroqStreamEvent.contentLine "lo".data] ++
        GroqStreamEvent.transportFailure :: []) =
      contentDeltas [GroqStreamEvent.contentLine "Hel".data,
        GroqStreamEvent.contentLine "lo".data] ++ [groqErrorApology] :=
  (c6_streaming_failure_yields_single_apology
    [GroqStreamEvent.contentLine "Hel".data, GroqStreamEvent.contentLine "lo".data]
    [] (by decide)).2.2.1

/-- Claim C8 fails on the code: for a 51-character first message the
chat route's title is the first 50 characters plus `"..."` — 53
characters, not bounded by 50. -/
theorem c8_counterexample :
    (route_session_title (List.replicate 51 'a')).length = 53 ∧
    ¬ (route_session_title (List.replicate 51 'a')).length ≤ 50 := by decide

/-- Claim C8 as amended: the chat route derives the title
deterministically from the stripped first message as its first 50
characters with `"..."` appended exactly when the message exceeds 50
characters, so the title is bounded by 53 (53 exactly when truncated)
and equals the message itself when the message has at most 50
characters; the unused `SessionService.generate_session_title` instead
caps the title at 50 characters. -/
theorem c8_route_title_truncation (message : List Char) :
    (message.length ≤ 50 → route_session_title message = message) ∧
    (50 < message.length →
      route_session_title message = message.take 50 ++ "...".data ∧
      (route_session_title message).length = 53) ∧
    (route_session_title message).length ≤ 53 ∧
    (SessionService.generate_session_title message 50).length ≤ 50 := by
  have h3 : ("...".data).length = 3 := rfl
  refine ⟨?_, ?_, ?_, ?_⟩
  · intro h
    unfold route_session_title
    rw [if_neg (by omega), List.take_of_length_le h, List.append_nil]
  · intro h
    unfold route_session_title
    rw [if_pos h]
    refine ⟨rfl, ?_⟩
    rw [List.length_append, List.length_take, h3]
    omega
  · unfold route_session_title
    split
    · rw [List.length_append, List.length_take, h3]; omega
    · rw [List.length_append, List.length_take, List.length_nil]; omega
  · simp only [SessionService.generate_session_title]
    by_cases h50 : 50 < (pyStrip message).length
    · rw [if_pos h50]
      have hlen : ((pyStrip message).take (50 - 3) ++ "...".data).length = 50 := by
        rw [List.length_append, List.length_take, h3]; omega
      have hne : ((pyStrip message).take (50 - 3) ++ "...".data).isEmpty = false := by
        rcases hl : (pyStrip message).take (50 - 3) ++ "...".data with _ | ⟨a, l⟩
        · rw [hl] at hlen; simp at hlen
        · rfl
      rw [hne]
      simp only [Bool.false_eq_true, if_false]
      rw [List.length_append, List.length_take]
      simp only [List.length_cons, List.length_nil]
      omega
    · rw [if_neg h50]
      by_cases he : (pyStrip message).isEmpty
      · rw [he]
        simp only [if_true]
        decide
      · rw [Bool.of_not_eq_true he]
        simp only [Bool.false_eq_true, if_false]
        omega

/-- Witness for the amended C8 at the spec's example message. -/
theorem c8_witness :
    route_session_title "What is this about?".data = "What is this about?".data :=
  (c8_route_title_truncation "What is this about?".data).1 (by decide)

end DocGbt
